import Mathlib

/-!
Verification of the Code Sprawl Analysis Engine of the dev_debt_backend
repository. The engine lives in three copies in the source tree:

* `src/src/services/analyzer.js` (the "services" analyzer, AST mode with
  regex fallback),
* `src/docker/analyzer/analyze.js` (the "docker" analyzer, text mode only,
  with per-LOC complexity normalization and richer responsibility/coupling
  heuristics),
* `src/unnamed/part_001` (a second docker variant whose AST complexity is
  normalized by character span).

JavaScript numbers are modelled as exact rationals (`ℚ`); `Math.round` is
modelled as floor(x + 1/2), which agrees with JS on the non-negative values
produced here. JavaScript regular expressions are modelled by a small
backtracking matcher (`RE` / `matchRE`) with JS priority semantics: ordered
alternation, greedy/lazy stars, word boundaries and multiline line starts;
each source regex is transcribed as an `RE` value next to its source text.
-/

namespace DevDebt

/-! Character classes used by the source regexes. -/

/-- Character class of the JS `\s` whitespace escape (ASCII part; the inputs
analysed here contain only ASCII whitespace). -/
def jsSpace (c : Char) : Bool :=
  c = ' ' || c = '\t' || c = '\n' || c = '\r' || c = '\x0b' || c = '\x0c'

/-- Character class of the JS `\w` escape: `[A-Za-z0-9_]`. -/
def wordChar (c : Char) : Bool :=
  ('a' ≤ c && c ≤ 'z') || ('A' ≤ c && c ≤ 'Z') || ('0' ≤ c && c ≤ '9') || c = '_'

/-- Character class of the JS `.` metacharacter: any char except line
terminators. -/
def dotChar (c : Char) : Bool :=
  !(c = '\n' || c = '\r' || c = Char.ofNat 0x2028 || c = Char.ofNat 0x2029)

/-- Apostrophe character, written by code point to keep source text plain. -/
def quoteSingle : Char := Char.ofNat 39

/-- Opening curly brace character. -/
def braceOpen : Char := Char.ofNat 123

/-- Double-quote character, written by code point to keep source text
plain. -/
def quoteDouble : Char := Char.ofNat 34

/-- Character class of either quote character, used by several source
regexes. -/
def quoteChar (c : Char) : Bool := c = quoteSingle || c = quoteDouble

/-! String primitives mirroring the JS string methods used by the source. -/

/-- Model of `content.split('\n')` (literal-separator split, as in JS). -/
def splitLines : List Char → List (List Char)
  | [] => [[]]
  | c :: cs =>
    if c = '\n' then [] :: splitLines cs
    else
      match splitLines cs with
      | [] => [[c]]
      | l :: ls => (c :: l) :: ls

/-- Model of `String.prototype.trim`: strip leading and trailing `\s`. -/
def jsTrim (cs : List Char) : List Char :=
  ((cs.dropWhile jsSpace).reverse.dropWhile jsSpace).reverse

/-- Helper for `collapseWs`, tracking whether the previous character was
part of a whitespace run already replaced. -/
def collapseWsAux : Bool → List Char → List Char
  | _, [] => []
  | prevSpace, c :: cs =>
    if jsSpace c then
      if prevSpace then collapseWsAux true cs
      else ' ' :: collapseWsAux true cs
    else c :: collapseWsAux false cs

/-- Model of `line.replace(/\s+/g, ' ')`: collapse every maximal whitespace
run to a single space. -/
def collapseWs (cs : List Char) : List Char := collapseWsAux false cs

/-- Model of JS `Math.round` (floor of x + 1/2; JS rounds half toward +∞). -/
def jsRound (x : ℚ) : ℚ := ⌊x + 1 / 2⌋

/-- Model of `Math.round(x * 100) / 100`, the 2-decimal reporting rounding
used for every emitted field. -/
def round2 (x : ℚ) : ℚ := jsRound (x * 100) / 100

/-! Regex engine: a small backtracking matcher with JS priority semantics. -/

/-- Abstract syntax of the regular expressions used by the analyzer.
Alternation is ordered (left first, as in JS); `star` carries a greediness
flag (`true` for `*`, `false` for `*?`). -/
inductive RE where
  | eps : RE
  | chr (c : Char) : RE
  | cls (p : Char → Bool) : RE
  | seq (a b : RE) : RE
  | alt (a b : RE) : RE
  | star (greedy : Bool) (r : RE) : RE
  | wordB : RE
  | lineStart : RE

/-- Structural size of a regex, used to bound matcher fuel. -/
def reSize : RE → Nat
  | .eps => 1
  | .chr _ => 1
  | .cls _ => 1
  | .seq a b => reSize a + reSize b + 1
  | .alt a b => reSize a + reSize b + 1
  | .star _ r => reSize r + 1
  | .wordB => 1
  | .lineStart => 1

/-- True when a JS `\b` word boundary holds between `prev` (the character
before the current position, none at string start) and the current suffix. -/
def wordBoundary (prev : Option Char) (s : List Char) : Bool :=
  (match prev with | some c => wordChar c | none => false)
    != (match s with | x :: _ => wordChar x | [] => false)

/-- True when a multiline `^` anchor holds before the current position. -/
def lineStartOk (prev : Option Char) : Bool :=
  match prev with | none => true | some c => c = '\n'

/-- Backtracking matcher in continuation style. `matchRE fuel re prev s k`
tries to match `re` at the start of `s` (with `prev` the preceding
character) and calls `k` on the rest; it returns the total number of
characters consumed, choosing alternatives in JS priority order (ordered
alternation, greedy stars longest-first, lazy stars shortest-first). Fuel
decreases on every call; `matchFuel` below always suffices. -/
def matchRE : Nat → RE → Option Char → List Char →
    (Option Char → List Char → Option Nat) → Option Nat
  | 0, _, _, _, _ => none
  | fuel + 1, re, prev, s, k =>
    match re with
    | .eps => k prev s
    | .chr c =>
      match s with
      | [] => none
      | x :: xs => if x = c then (k (some x) xs).map (· + 1) else none
    | .cls p =>
      match s with
      | [] => none
      | x :: xs => if p x then (k (some x) xs).map (· + 1) else none
    | .seq a b => matchRE fuel a prev s (fun p' s' => matchRE fuel b p' s' k)
    | .alt a b =>
      (matchRE fuel a prev s k).orElse (fun _ => matchRE fuel b prev s k)
    | .star greedy r =>
      let takeOne :=
        matchRE fuel r prev s (fun p' s' => matchRE fuel (.star greedy r) p' s' k)
      if greedy then takeOne.orElse (fun _ => k prev s)
      else (k prev s).orElse (fun _ => takeOne)
    | .wordB => if wordBoundary prev s then k prev s else none
    | .lineStart => if lineStartOk prev then k prev s else none

/-- Fuel bound sufficient for `matchRE` on the patterns used here. -/
def matchFuel (re : RE) (s : List Char) : Nat :=
  (reSize re + 2) * (s.length + 2)

/-- Length of the match of `re` at the current position, if any, under JS
backtracking priority. -/
def matchAt (re : RE) (prev : Option Char) (s : List Char) : Option Nat :=
  matchRE (matchFuel re s) re prev s (fun _ _ => some 0)

/-- Helper for `scanCount`: left-to-right global scan (the `/g` flag),
counting non-overlapping matches and resuming after each match. -/
def scanCountAux (re : RE) : Nat → Option Char → List Char → Nat
  | 0, _, _ => 0
  | _ + 1, _, [] => 0
  | fuel + 1, prev, c :: cs =>
    match matchAt re prev (c :: cs) with
    | some (n + 1) =>
      1 + scanCountAux re fuel ((c :: cs).get? n) ((c :: cs).drop (n + 1))
    | _ => scanCountAux re fuel (some c) cs

/-- Model of `(content.match(re) || []).length` for a global regex. -/
def scanCount (re : RE) (content : String) : Nat :=
  scanCountAux re (content.data.length + 1) none content.data

/-- Helper for `scanMatches`: like `scanCountAux` but collecting the matched
substrings. -/
def scanMatchesAux (re : RE) : Nat → Option Char → List Char → List (List Char)
  | 0, _, _ => []
  | _ + 1, _, [] => []
  | fuel + 1, prev, c :: cs =>
    match matchAt re prev (c :: cs) with
    | some (n + 1) =>
      (c :: cs).take (n + 1) ::
        scanMatchesAux re fuel ((c :: cs).get? n) ((c :: cs).drop (n + 1))
    | _ => scanMatchesAux re fuel (some c) cs

/-- Model of `content.match(re) || []` for a global regex (the list of
matched substrings, in order). -/
def scanMatches (re : RE) (content : String) : List (List Char) :=
  scanMatchesAux re (content.data.length + 1) none content.data

/-- Helper for `firstMatchIn`. -/
def firstMatchAux (re : RE) : Nat → Option Char → List Char → Option (List Char)
  | 0, _, _ => none
  | _ + 1, _, [] => none
  | fuel + 1, prev, c :: cs =>
    match matchAt re prev (c :: cs) with
    | some (n + 1) => some ((c :: cs).take (n + 1))
    | _ => firstMatchAux re fuel (some c) cs

/-- Model of `s.match(re)?.[0]` for a non-global regex: the first match. -/
def firstMatchIn (re : RE) (s : List Char) : Option (List Char) :=
  firstMatchAux re (s.length + 1) none s

/-! Combinators for transcribing the source regexes. -/

/-- Sequence of a list of regexes. -/
def reSeq (l : List RE) : RE := l.foldr RE.seq RE.eps

/-- Ordered alternation of a list of regexes (left has priority, as in JS). -/
def reAlts (l : List RE) : RE := l.foldr RE.alt (RE.cls (fun _ => false))

/-- Literal string regex (case sensitive). -/
def reStr (s : String) : RE := reSeq (s.data.map RE.chr)

/-- Case-insensitive literal character (the `i` flag). -/
def reChrI (c : Char) : RE := RE.cls (fun x => x.toLower = c.toLower)

/-- Case-insensitive literal string (the `i` flag). -/
def reStrI (s : String) : RE := reSeq (s.data.map reChrI)

/-- Greedy `r*`. -/
def reStar (r : RE) : RE := RE.star true r

/-- Lazy `r*?`. -/
def reStarLazy (r : RE) : RE := RE.star false r

/-- Greedy `r+`. -/
def rePlus (r : RE) : RE := RE.seq r (RE.star true r)

/-- Greedy `r?` (prefers the match, as in JS). -/
def reOpt (r : RE) : RE := RE.alt r RE.eps

/-! Transcriptions of the source regular expressions. Each definition names
the JS regex it models, from `src/src/services/analyzer.js` (services) and
`src/docker/analyzer/analyze.js` (docker). -/

/-- Character class `[^)]`. -/
def notClose (c : Char) : Bool := !(c = ')')

/-- Source regex `/\bif\b/g`. -/
def reIfKw : RE := reSeq [RE.wordB, reStr ("if"), RE.wordB]

/-- Source regex `/\belse\s+if\b/g`. -/
def reElseIf : RE :=
  reSeq [RE.wordB, reStr ("else"), rePlus (RE.cls jsSpace), reStr ("if"), RE.wordB]

/-- Source regex `/\bfor\b/g`. -/
def reForKw : RE := reSeq [RE.wordB, reStr ("for"), RE.wordB]

/-- Source regex `/\bwhile\b/g`. -/
def reWhileKw : RE := reSeq [RE.wordB, reStr ("while"), RE.wordB]

/-- Source regex `/\bcase\b/g`. -/
def reCaseKw : RE := reSeq [RE.wordB, reStr ("case"), RE.wordB]

/-- Source regex `/\bcatch\b/g`. -/
def reCatchKw : RE := reSeq [RE.wordB, reStr ("catch"), RE.wordB]

/-- Source regex `/\?\s*.*\s*:/g` (the ternary shape). -/
def reTernary : RE :=
  reSeq [RE.chr '?', reStar (RE.cls jsSpace), reStar (RE.cls dotChar),
    reStar (RE.cls jsSpace), RE.chr ':']

/-- The `patterns` array of `calculateComplexityRegex` (services, line 243)
and `calculateCyclomaticComplexity` (docker, lines 194-204), in source
order. -/
def complexityPatterns : List RE :=
  [reIfKw, reElseIf, reForKw, reWhileKw, reCaseKw, reCatchKw, reTernary,
    reStr ("&&"), reStr ("||")]

/-- Source regex: multiline line-start `import`, `\s+`, `.*`, `from`,
`\s+`, then either quote character (global, multiline flags). -/
def reImportLine : RE :=
  reSeq [RE.lineStart, reStr ("import"), rePlus (RE.cls jsSpace),
    reStar (RE.cls dotChar), reStr ("from"), rePlus (RE.cls jsSpace),
    RE.cls quoteChar]

/-- Source regex: `require`, `\s*`, an opening parenthesis, `\s*`, then
either quote character (global flag). -/
def reRequireCall : RE :=
  reSeq [reStr ("require"), reStar (RE.cls jsSpace), RE.chr '(',
    reStar (RE.cls jsSpace), RE.cls quoteChar]

/-- Source regex `/function\s+\w+|const\s+\w+\s*=\s*(?:async\s*)?\([^)]*\)\s*=>/g`. -/
def reFunctionDefs : RE :=
  RE.alt
    (reSeq [reStr ("function"), rePlus (RE.cls jsSpace), rePlus (RE.cls wordChar)])
    (reSeq [reStr ("const"), rePlus (RE.cls jsSpace), rePlus (RE.cls wordChar),
      reStar (RE.cls jsSpace), RE.chr '=', reStar (RE.cls jsSpace),
      reOpt (reSeq [reStr ("async"), reStar (RE.cls jsSpace)]),
      RE.chr '(', reStar (RE.cls notClose), RE.chr ')',
      reStar (RE.cls jsSpace), reStr ("=>")])

/-- Source regex `/\.(get|post|put|delete|patch)\s*\(/gi`. -/
def reHttpCall : RE :=
  reSeq [RE.chr '.',
    reAlts [reStrI ("get"), reStrI ("post"), reStrI ("put"),
      reStrI ("delete"), reStrI ("patch")],
    reStar (RE.cls jsSpace), RE.chr '(']

/-- Source regex `/\.set\s*\(|setState|\.update\s*\(|\.push\s*\(|\.splice\s*\(/gi`. -/
def reStateCall : RE :=
  reAlts
    [reSeq [RE.chr '.', reStrI ("set"), reStar (RE.cls jsSpace), RE.chr '('],
      reStrI ("setState"),
      reSeq [RE.chr '.', reStrI ("update"), reStar (RE.cls jsSpace), RE.chr '('],
      reSeq [RE.chr '.', reStrI ("push"), reStar (RE.cls jsSpace), RE.chr '('],
      reSeq [RE.chr '.', reStrI ("splice"), reStar (RE.cls jsSpace), RE.chr '(']]

/-- Source regex `/await\s+\w+/g` (docker responsibility heuristic). -/
def reAwaitCall : RE :=
  reSeq [reStr ("await"), rePlus (RE.cls jsSpace), rePlus (RE.cls wordChar)]

/-- Source regex `/^\s*(async\s+)?\w+\s*\([^)]*\)\s*{/gm` (docker
class-method heuristic). -/
def reClassMethod : RE :=
  reSeq [RE.lineStart, reStar (RE.cls jsSpace),
    reOpt (reSeq [reStr ("async"), rePlus (RE.cls jsSpace)]),
    rePlus (RE.cls wordChar), reStar (RE.cls jsSpace),
    RE.chr '(', reStar (RE.cls notClose), RE.chr ')',
    reStar (RE.cls jsSpace), RE.chr braceOpen]

/-- Module names of the docker external-reference regex
`/\b(axios|fetch|http|fs|path|prisma|socket|redis|mongo)\b/gi`. -/
def externalRefNames : List String :=
  ["axios", "fetch", "http", "fs", "path", "prisma", "socket", "redis", "mongo"]

/-- Source regex `/\b(axios|fetch|http|fs|path|prisma|socket|redis|mongo)\b/gi`. -/
def reExternalRef : RE :=
  reSeq [RE.wordB, reAlts (externalRefNames.map reStrI), RE.wordB]

/-- Source regex `/TODO:?\s*(implement|add|fix|handle)/gi`. -/
def reTodo : RE :=
  reSeq [reStrI ("TODO"), reOpt (RE.chr ':'), reStar (RE.cls jsSpace),
    reAlts [reStrI ("implement"), reStrI ("add"), reStrI ("fix"), reStrI ("handle")]]

/-- Source regex `/\/\/\s*\.\.\./g` (ellipsis placeholder comment). -/
def reEllipsisComment : RE :=
  reSeq [reStr ("//"), reStar (RE.cls jsSpace), reStr ("...")]

/-- Source regex: `console.log(` literally, either quote character, then
`(debug|test|here)` (global, case-insensitive flags). -/
def reConsoleDebug : RE :=
  reSeq [reStrI ("console.log("), RE.cls quoteChar,
    reAlts [reStrI ("debug"), reStrI ("test"), reStrI ("here")]]

/-- Source regex `/\bany\b/g`. -/
def reAnyKw : RE := reSeq [RE.wordB, reStr ("any"), RE.wordB]

/-- Source regex `/\/\*\*[\s\S]*?\*\//g` (JSDoc block, lazy). -/
def reJsDoc : RE :=
  reSeq [reStr ("/**"), reStarLazy (RE.cls (fun _ => true)), reStr ("*/")]

/-- Source regex: `throw new Error(` literally, either quote character,
then `Not implemented` (global, case-insensitive flags). -/
def reNotImplemented : RE :=
  reSeq [reStrI ("throw new Error("), RE.cls quoteChar, reStrI ("Not implemented")]

/-- Source regex `/\/\/\s*eslint-disable/gi`. -/
def reEslintDisable : RE :=
  reSeq [reStr ("//"), reStar (RE.cls jsSpace), reStrI ("eslint-disable")]

/-- The `aiPatterns` array of `calculateAIEntropyFactor`, in source order. -/
def aiPatterns : List RE :=
  [reTodo, reEllipsisComment, reConsoleDebug, reAnyKw, reJsDoc,
    reNotImplemented, reEslintDisable]

/-- Source regex `/function\s+\w+\s*\([^)]*\)/g` (function signatures). -/
def reFuncSig : RE :=
  reSeq [reStr ("function"), rePlus (RE.cls jsSpace), rePlus (RE.cls wordChar),
    reStar (RE.cls jsSpace), RE.chr '(', reStar (RE.cls notClose), RE.chr ')']

/-- Source regex `/const\s+\w+\s*=\s*\([^)]*\)\s*=>/g` (arrow signatures). -/
def reArrowSig : RE :=
  reSeq [reStr ("const"), rePlus (RE.cls jsSpace), rePlus (RE.cls wordChar),
    reStar (RE.cls jsSpace), RE.chr '=', reStar (RE.cls jsSpace),
    RE.chr '(', reStar (RE.cls notClose), RE.chr ')',
    reStar (RE.cls jsSpace), reStr ("=>")]

/-- Source regex `/\([^)]*\)/` (non-global; extracts the parameter list
of a signature). -/
def reParenGroup : RE :=
  reSeq [RE.chr '(', reStar (RE.cls notClose), RE.chr ')']

/-! Fixed constants of the engine (identical in all three copies). -/

/-- Source constant `IDEAL_LOC = 30`. -/
def IDEAL_LOC : ℚ := 30

/-- Source constant `CC_MAX = 10`. -/
def CC_MAX : ℚ := 10

/-- Source constant `MAX_ALLOWED_DEPENDENCIES = 5`. -/
def MAX_ALLOWED_DEPENDENCIES : ℚ := 5

/-- Source constant `IDEAL_RESPONSIBILITIES = 2`. -/
def IDEAL_RESPONSIBILITIES : ℚ := 2

/-- Model of `content.split('\n').length`. -/
def lineCount (content : String) : ℕ := (splitLines content.data).length

/-! Syntax-tree model. `acorn-walk`'s `walk.simple` visits every node of
the parse tree once and the analyzer's visitors only inspect, per node, its
type plus the fields modelled in `NodeKind`; an `Ast` therefore carries the
list of visited nodes (with those fields) together with the root's
`start`/`end` character offsets (used only by the part_001 variant). The
external `acorn.parse` call is modelled as the `Option Ast` input of
`analyzeFile`: `some` when parsing succeeded, `none` when it threw. -/

/-- Node shapes distinguished by the analyzer's `walk.simple` visitors.
`switchCase` carries whether the case has a `test` (non-default arm);
`logicalExpression` carries its operator; `assignmentExpression` carries
whether its left side is a member expression on `this`; `callExpression`
carries `callee.name` when the callee is a named identifier. All other
node types are `otherNode`. -/
inductive NodeKind where
  | ifStatement : NodeKind
  | forStatement : NodeKind
  | forInStatement : NodeKind
  | forOfStatement : NodeKind
  | whileStatement : NodeKind
  | doWhileStatement : NodeKind
  | switchCase (hasTest : Bool) : NodeKind
  | conditionalExpression : NodeKind
  | logicalExpression (op : String) : NodeKind
  | functionDeclaration : NodeKind
  | functionExpression : NodeKind
  | arrowFunctionExpression : NodeKind
  | classDeclaration : NodeKind
  | methodDefinition : NodeKind
  | assignmentExpression (leftIsThisMember : Bool) : NodeKind
  | callExpression (calleeName : Option String) : NodeKind
  | importDeclaration : NodeKind
  | otherNode : NodeKind
deriving DecidableEq, Repr

/-- Parse result: the nodes `walk.simple` visits, plus the root node's
character span. -/
structure Ast where
  nodes : List NodeKind
  startPos : ℕ
  endPos : ℕ
deriving DecidableEq, Repr

/-- Per-node increment of `calculateComplexityAST` (services, lines
194-210): 1 for each conditional, loop, tested switch case, ternary, and
`&&`/`||` logical expression. -/
def complexityIncrement : NodeKind → ℕ
  | .ifStatement => 1
  | .forStatement => 1
  | .forInStatement => 1
  | .forOfStatement => 1
  | .whileStatement => 1
  | .doWhileStatement => 1
  | .switchCase hasTest => if hasTest then 1 else 0
  | .conditionalExpression => 1
  | .logicalExpression op => if op = "||" || op = "&&" then 1 else 0
  | _ => 0

/-- Model of `calculateComplexityAST` (services `analyzer.js` lines
194-210): counter starts at 1 and each visitor increments it. -/
def calculateComplexityAST (ast : Ast) : ℚ :=
  ((1 + (ast.nodes.map complexityIncrement).sum : ℕ) : ℚ)

/-- Model of part_001's `calculateComplexityAST` (lines 218-236), which
additionally divides the counter by the root span `ast.end - ast.start`
and multiplies by 100. -/
def calculateComplexityASTSpan (ast : Ast) : ℚ :=
  ((1 + (ast.nodes.map complexityIncrement).sum : ℕ) : ℚ) /
    ((ast.endPos : ℚ) - (ast.startPos : ℚ)) * 100

/-- Per-node increment of `calculateResponsibilityAST` (services, lines
212-228). -/
def responsibilityIncrement : NodeKind → ℚ
  | .functionDeclaration => 0.5
  | .functionExpression => 0.5
  | .arrowFunctionExpression => 0.5
  | .classDeclaration => 1.0
  | .methodDefinition => 0.3
  | .assignmentExpression leftIsThisMember => if leftIsThisMember then 0.2 else 0
  | _ => 0

/-- Model of `calculateResponsibilityAST` (services lines 212-228). -/
def calculateResponsibilityAST (ast : Ast) : ℚ :=
  max 1 ((ast.nodes.map responsibilityIncrement).sum) / IDEAL_RESPONSIBILITIES

/-- Per-node increment of `calculateCouplingAST` (services, lines
230-240): import declarations and calls whose callee is named `require`. -/
def dependencyIncrement : NodeKind → ℕ
  | .importDeclaration => 1
  | .callExpression calleeName => if calleeName = some ("require") then 1 else 0
  | _ => 0

/-- Model of `calculateCouplingAST` (services lines 230-240). -/
def calculateCouplingAST (ast : Ast) : ℚ :=
  (((ast.nodes.map dependencyIncrement).sum : ℕ) : ℚ) / MAX_ALLOWED_DEPENDENCIES

/-! Text-mode metric calculators. -/

/-- Model of `calculateComplexityRegex` (services lines 242-250): base 1
plus the match count of each complexity pattern. -/
def calculateComplexityRegex (content : String) : ℚ :=
  ((1 + (complexityPatterns.map (fun p => scanCount p content)).sum : ℕ) : ℚ)

/-- Model of the docker `calculateCyclomaticComplexity` (docker `analyze.js`
lines 193-218): the same base-1 pattern count, then `(complexity / loc) *
100` — normalized by line count, unlike the services copy. -/
def calculateCyclomaticComplexity (content : String) : ℚ :=
  ((1 + (complexityPatterns.map (fun p => scanCount p content)).sum : ℕ) : ℚ) /
    (lineCount content : ℚ) * 100

/-- Model of `calculateResponsibilityRegex` (services lines 252-262). -/
def calculateResponsibilityRegex (content : String) : ℚ :=
  max 1 ((scanCount reFunctionDefs content : ℚ) * 0.5 +
      (scanCount reHttpCall content : ℚ) * 0.3 +
      (scanCount reStateCall content : ℚ) * 0.2) /
    IDEAL_RESPONSIBILITIES

/-- Model of the docker `calculateResponsibilityScore` (docker lines
255-283): the services heuristic plus await-call and class-method terms. -/
def calculateResponsibilityScore (content : String) : ℚ :=
  max 1 ((scanCount reFunctionDefs content : ℚ) * 0.5 +
      (scanCount reHttpCall content : ℚ) * 0.3 +
      (scanCount reStateCall content : ℚ) * 0.2 +
      (scanCount reAwaitCall content : ℚ) * 0.1 +
      (scanCount reClassMethod content : ℚ) * 0.3) /
    IDEAL_RESPONSIBILITIES

/-- Model of `calculateCouplingRegex` (services lines 264-269). -/
def calculateCouplingRegex (content : String) : ℚ :=
  ((scanCount reImportLine content + scanCount reRequireCall content : ℕ) : ℚ) /
    MAX_ALLOWED_DEPENDENCIES

/-- Model of the docker `calculateCouplingScore` (docker lines 289-303):
the import and require matches plus the deduplicated, lowercased external
references. -/
def calculateCouplingScore (content : String) : ℚ :=
  ((scanCount reImportLine content + scanCount reRequireCall content +
      (((scanMatches reExternalRef content).map
        (fun m => m.map Char.toLower)).dedup).length : ℕ) : ℚ) /
    MAX_ALLOWED_DEPENDENCIES

/-! Duplication ratio (identical in all three copies; services lines
271-290). -/

/-- The filtered line list of `calculateDuplicationRatio`: every line of
the split content, trimmed, keeping only lines longer than 10 characters
that do not start with a line comment, a block-comment continuation, or
an import statement. -/
def eligibleLines (content : String) : List (List Char) :=
  ((splitLines content.data).map jsTrim).filter (fun l =>
    decide (l.length > 10) && !(("//".data).isPrefixOf l) &&
      !(("*".data).isPrefixOf l) && !(("import".data).isPrefixOf l))

/-- The eligible lines after whitespace-run collapsing (the `normalized`
keys of the frequency map). -/
def normalizedLines (content : String) : List (List Char) :=
  (eligibleLines content).map collapseWs

/-- The `duplicatedLines` counter: for each distinct normalized line whose
frequency exceeds one, `count - 1`. -/
def duplicatedLinesCount (content : String) : ℕ :=
  ((normalizedLines content).dedup.map (fun v =>
    if (normalizedLines content).count v > 1
    then (normalizedLines content).count v - 1 else 0)).sum

/-- Model of `calculateDuplicationRatio` (services lines 271-290). -/
def calculateDuplicationRatio (content : String) : ℚ :=
  if eligibleLines content = [] then 0
  else (duplicatedLinesCount content : ℚ) / ((eligibleLines content).length : ℚ)

/-! Entropy factor (identical in all three copies; services lines 292-333). -/

/-- The `patternCount` accumulator: total matches of the `aiPatterns`. -/
def patternCountOf (content : String) : ℕ :=
  (aiPatterns.map (fun p => scanCount p content)).sum

/-- The `allSignatures` array: function signatures then arrow signatures. -/
def allSignatures (content : String) : List (List Char) :=
  scanMatches reFuncSig content ++ scanMatches reArrowSig content

/-- Parameter-count key of one signature: commas inside the first
parenthesis group, plus 1 when that group is longer than `()`. -/
def signatureParamCount (sig : List Char) : ℕ :=
  let params := (firstMatchIn reParenGroup sig).getD []
  params.count ',' + (if params.length > 2 then 1 else 0)

/-- The values of the `signaturePatterns` frequency object: for each
distinct parameter count, how many signatures have it. -/
def signatureBucketValues (content : String) : List ℕ :=
  ((allSignatures content).map signatureParamCount).dedup.map
    (fun k => ((allSignatures content).map signatureParamCount).count k)

/-- The `signatureSimilarity` term: fraction of signatures in the largest
bucket times 0.3, only when there are buckets and more than 3 signatures. -/
def signatureSimilarityOf (content : String) : ℚ :=
  if signatureBucketValues content ≠ [] ∧ (allSignatures content).length > 3 then
    (((signatureBucketValues content).foldr max 0 : ℕ) : ℚ) /
      ((allSignatures content).length : ℚ) * 0.3
  else 0

/-- Model of `calculateAIEntropyFactor` (services lines 292-333). -/
def calculateAIEntropyFactor (content : String) : ℚ :=
  if lineCount content = 0 then 0
  else
    min 0.5 ((patternCountOf content : ℚ) / (lineCount content : ℚ) * 0.5 +
      signatureSimilarityOf content)

/-- Model of `hasDeepNesting` (services lines 335-342): some line has more
than 16 leading whitespace characters. -/
def hasDeepNesting (content : String) : Bool :=
  (splitLines content.data).any (fun l => decide ((l.takeWhile jsSpace).length > 16))

/-! Score aggregation (services `analyzeFile`, lines 105-192). The local
bindings of the source function are named definitions here so that the
theorems below can speak about the full-precision intermediate values. -/

/-- The `normalizedLOC` local: `loc / IDEAL_LOC`. -/
def normalizedLOCOf (content : String) : ℚ := (lineCount content : ℚ) / IDEAL_LOC

/-- The `cyclomaticComplexity` local: AST mode when acorn parsed the file,
regex fallback otherwise (services lines 133-135). -/
def cyclomaticComplexityOf (content : String) (ast : Option Ast) : ℚ :=
  match ast with
  | some a => calculateComplexityAST a
  | none => calculateComplexityRegex content

/-- The `complexityScore` local: `cyclomaticComplexity / CC_MAX`. -/
def complexityScoreOf (content : String) (ast : Option Ast) : ℚ :=
  cyclomaticComplexityOf content ast / CC_MAX

/-- The `responsibilityScore` local (services lines 142-144). -/
def responsibilityScoreOf (content : String) (ast : Option Ast) : ℚ :=
  match ast with
  | some a => calculateResponsibilityAST a
  | none => calculateResponsibilityRegex content

/-- The `couplingScore` local (services lines 146-148). -/
def couplingScoreOf (content : String) (ast : Option Ast) : ℚ :=
  match ast with
  | some a => calculateCouplingAST a
  | none => calculateCouplingRegex content

/-- The `sprawlScore` local: the weighted combination with the source's
`weights` object `{size: 0.25, complexity: 0.30, duplication: 0.20,
responsibility: 0.15, coupling: 0.10}` (services lines 150-156). -/
def sprawlScoreOf (content : String) (ast : Option Ast) : ℚ :=
  0.25 * normalizedLOCOf content +
    0.30 * complexityScoreOf content ast +
    0.20 * calculateDuplicationRatio content +
    0.15 * responsibilityScoreOf content ast +
    0.10 * couplingScoreOf content ast

/-- The `adjustedSprawlScore` local: `sprawlScore * (1 + aiEntropyFactor)`
(services line 159). -/
def adjustedSprawlScoreOf (content : String) (ast : Option Ast) : ℚ :=
  sprawlScoreOf content ast * (1 + calculateAIEntropyFactor content)

/-- The `sprawlLevel` classification chain (services lines 161-165). -/
def sprawlLevelOf (adjusted : ℚ) : String :=
  if adjusted < 0.8 then "clean"
  else if adjusted < 1.2 then "mild"
  else if adjusted < 1.6 then "high"
  else "severe"

/-- The `metrics` sub-object of an emitted per-file record. -/
structure SubMetrics where
  normalizedLOC : ℚ
  complexityScore : ℚ
  duplicationRatio : ℚ
  responsibilityScore : ℚ
  couplingScore : ℚ
  aiEntropyFactor : ℚ
deriving DecidableEq, Repr

/-- The `details` sub-object of an emitted per-file record. -/
structure Details where
  hasLongFunctions : Bool
  hasDeepNesting : Bool
  hasRepetitivePatterns : Bool
  hasHighCoupling : Bool
  hasTooManyResponsibilities : Bool
deriving DecidableEq, Repr

/-- One emitted per-file record, with the exact field set of the source's
return object. -/
structure FileRecord where
  path : String
  loc : ℕ
  metrics : SubMetrics
  cyclomaticComplexity : ℚ
  duplicatedLogicScore : ℚ
  aiEntropyScore : ℚ
  totalDebtScore : ℚ
  sprawlScore : ℚ
  sprawlLevel : String
  details : Details
deriving DecidableEq, Repr

/-- The record built by the non-skip branch of the services `analyzeFile`
(lines 167-191): every reported number is rounded to 2 decimals
(`Math.round(x*100)/100`), `duplicatedLogicScore`/`aiEntropyScore` to
integers times 100, and both `totalDebtScore` and `sprawlScore` carry the
rounded adjusted score. -/
def mkFileRecord (content : String) (ast : Option Ast) (filePath : String) :
    FileRecord :=
  { path := filePath,
    loc := lineCount content,
    metrics :=
      { normalizedLOC := round2 (normalizedLOCOf content),
        complexityScore := round2 (complexityScoreOf content ast),
        duplicationRatio := round2 (calculateDuplicationRatio content),
        responsibilityScore := round2 (responsibilityScoreOf content ast),
        couplingScore := round2 (couplingScoreOf content ast),
        aiEntropyFactor := round2 (calculateAIEntropyFactor content) },
    cyclomaticComplexity := round2 (cyclomaticComplexityOf content ast),
    duplicatedLogicScore := jsRound (calculateDuplicationRatio content * 100),
    aiEntropyScore := jsRound (calculateAIEntropyFactor content * 100),
    totalDebtScore := round2 (adjustedSprawlScoreOf content ast),
    sprawlScore := round2 (adjustedSprawlScoreOf content ast),
    sprawlLevel := sprawlLevelOf (adjustedSprawlScoreOf content ast),
    details :=
      { hasLongFunctions := decide (lineCount content > 50),
        hasDeepNesting := hasDeepNesting content,
        hasRepetitivePatterns := decide (calculateDuplicationRatio content > 0.1),
        hasHighCoupling := decide (couplingScoreOf content ast > 1.0),
        hasTooManyResponsibilities :=
          decide (responsibilityScoreOf content ast > 1.5) } }

/-- Model of the services `analyzeFile` (lines 105-192): `null` for files
with fewer than 5 lines, otherwise the full record. The `ast` argument is
the outcome of the internal `acorn.parse` try/catch. -/
def analyzeFile (content : String) (ast : Option Ast) (filePath : String) :
    Option FileRecord :=
  if lineCount content < 5 then none
  else some (mkFileRecord content ast filePath)

/-! Docker analyzer (`src/docker/analyzer/analyze.js`, lines 108-187):
same aggregation shape, but text-mode calculators only, with the per-LOC
normalized complexity and the richer responsibility/coupling heuristics. -/

/-- The docker `complexityScore` local. -/
def dockerComplexityScoreOf (content : String) : ℚ :=
  calculateCyclomaticComplexity content / CC_MAX

/-- The docker `sprawlScore` local (same weights object). -/
def dockerSprawlScoreOf (content : String) : ℚ :=
  0.25 * normalizedLOCOf content +
    0.30 * dockerComplexityScoreOf content +
    0.20 * calculateDuplicationRatio content +
    0.15 * calculateResponsibilityScore content +
    0.10 * calculateCouplingScore content

/-- The docker `adjustedSprawlScore` local. -/
def dockerAdjustedSprawlScoreOf (content : String) : ℚ :=
  dockerSprawlScoreOf content * (1 + calculateAIEntropyFactor content)

/-- The record built by the non-skip branch of the docker `analyzeFile`
(lines 162-186). -/
def mkDockerFileRecord (content : String) (filePath : String) : FileRecord :=
  { path := filePath,
    loc := lineCount content,
    metrics :=
      { normalizedLOC := round2 (normalizedLOCOf content),
        complexityScore := round2 (dockerComplexityScoreOf content),
        duplicationRatio := round2 (calculateDuplicationRatio content),
        responsibilityScore := round2 (calculateResponsibilityScore content),
        couplingScore := round2 (calculateCouplingScore content),
        aiEntropyFactor := round2 (calculateAIEntropyFactor content) },
    cyclomaticComplexity := round2 (calculateCyclomaticComplexity content),
    duplicatedLogicScore := jsRound (calculateDuplicationRatio content * 100),
    aiEntropyScore := jsRound (calculateAIEntropyFactor content * 100),
    totalDebtScore := round2 (dockerAdjustedSprawlScoreOf content),
    sprawlScore := round2 (dockerAdjustedSprawlScoreOf content),
    sprawlLevel := sprawlLevelOf (dockerAdjustedSprawlScoreOf content),
    details :=
      { hasLongFunctions := decide (lineCount content > 50),
        hasDeepNesting := hasDeepNesting content,
        hasRepetitivePatterns := decide (calculateDuplicationRatio content > 0.1),
        hasHighCoupling := decide (calculateCouplingScore content > 1.0),
        hasTooManyResponsibilities :=
          decide (calculateResponsibilityScore content > 1.5) } }

/-- Model of the docker `analyzeFile` (lines 108-187). -/
def dockerAnalyzeFile (content : String) (filePath : String) :
    Option FileRecord :=
  if lineCount content < 5 then none
  else some (mkDockerFileRecord content filePath)

/-! Run coordinator (services `analyzeRepo`, lines 16-100). Cloning, glob
enumeration and `readFileSync` are external effects; a run's input is
modelled as the list of candidate files, each carrying either its content
and parse outcome, or a failure standing for an exception thrown while
reading or analyzing that file (the loop's try/catch). -/

/-- Outcome of reading and parsing one candidate file. -/
inductive ReadResult where
  | failure (message : String) : ReadResult
  | success (content : String) (ast : Option Ast) : ReadResult
deriving DecidableEq, Repr

/-- One candidate file of a run. -/
structure Candidate where
  path : String
  read : ReadResult
deriving DecidableEq, Repr

/-- The `results.summary` object. -/
structure RunSummary where
  totalFiles : ℕ
  analyzedFiles : ℕ
  averageComplexity : ℚ
  averageDebtScore : ℚ
deriving DecidableEq, Repr

/-- The structured result of `analyzeRepo`. -/
structure AnalysisResults where
  summary : RunSummary
  files : List FileRecord
deriving DecidableEq, Repr

/-- Mutable state of the per-file loop: the growing file list, the
`analyzedFiles` counter, and the running sums `totalComplexity` and
`totalDebt` (which accumulate the emitted, already-rounded record
fields `metrics.cyclomaticComplexity` and `metrics.totalDebtScore`,
services lines 73-74). -/
structure LoopState where
  files : List FileRecord
  analyzedFiles : ℕ
  totalComplexity : ℚ
  totalDebt : ℚ
deriving DecidableEq, Repr

/-- The record a candidate contributes: none when reading/analyzing threw
(caught by the loop) or when `analyzeFile` returned null. -/
def candidateRecord (c : Candidate) : Option FileRecord :=
  match c.read with
  | .failure _ => none
  | .success content ast => analyzeFile content ast c.path

/-- One iteration of the `for (const file of files)` loop (services lines
63-79): a failure is caught and skipped; a null record is skipped; a
record is pushed and folded into the counters. -/
def analyzeRepoStep (st : LoopState) (c : Candidate) : LoopState :=
  match c.read with
  | .failure _ => st
  | .success content ast =>
    match analyzeFile content ast c.path with
    | none => st
    | some m =>
      { files := st.files ++ [m],
        analyzedFiles := st.analyzedFiles + 1,
        totalComplexity := st.totalComplexity + m.cyclomaticComplexity,
        totalDebt := st.totalDebt + m.totalDebtScore }

/-- Model of the analysis phase of `analyzeRepo` (services lines 50-87):
`totalFiles` is the number of enumerated candidates; averages divide the
running sums by `analyzedFiles` when positive and stay 0 otherwise. -/
def analyzeRepo (candidates : List Candidate) : AnalysisResults :=
  let st := candidates.foldl analyzeRepoStep ⟨[], 0, 0, 0⟩
  { summary :=
      { totalFiles := candidates.length,
        analyzedFiles := st.analyzedFiles,
        averageComplexity :=
          if st.analyzedFiles > 0 then st.totalComplexity / (st.analyzedFiles : ℚ)
          else 0,
        averageDebtScore :=
          if st.analyzedFiles > 0 then st.totalDebt / (st.analyzedFiles : ℚ)
          else 0 },
    files := st.files }

/-! Specification-side definitions, phrased from the claim texts, to be
compared with the source-side definitions above. -/

/-- Claim-side predicate for C2: a node is decision-introducing when it is
a conditional, a loop of any kind, a non-default switch arm, a ternary, or
an `&&`/`||` operator. -/
def isDecisionPoint : NodeKind → Bool
  | .ifStatement => true
  | .forStatement => true
  | .forInStatement => true
  | .forOfStatement => true
  | .whileStatement => true
  | .doWhileStatement => true
  | .switchCase hasTest => hasTest
  | .conditionalExpression => true
  | .logicalExpression op => op = "||" || op = "&&"
  | _ => false

/-- Claim-side count for C5: `n - 1` duplicated lines for each group of
normalized eligible lines of size `n` (groups of size 1 contribute 0). -/
def specDuplicatedCount (content : String) : ℕ :=
  ((normalizedLines content).dedup.map (fun v =>
    (normalizedLines content).count v - 1)).sum

/-- Claim-side concentration for C6: the fraction of function-like
signatures in the single most common parameter-count bucket, taken as 0
unless there are more than 3 signatures. -/
def signatureConcentrationSpec (content : String) : ℚ :=
  if (allSignatures content).length > 3 then
    (((signatureBucketValues content).foldr max 0 : ℕ) : ℚ) /
      ((allSignatures content).length : ℚ)
  else 0

/-! Concrete inputs used by the witnesses and counterexamples. Curly braces
inside string literals are written with `\x7b`/`\x7d` escapes. -/

/-- Minimal 5-line file: five one-character lines, no decision points,
no imports, no duplicated eligible lines, no entropy patterns. -/
def smallFile : String := "a\nb\nc\nd\ne"

/-- A 4-line file, below the 5-line analysis floor. -/
def fourLineFile : String := "a\nb\nc\nd"

/-- A 10-line file with a single `if` and nothing else the complexity
patterns match. -/
def c2xFile : String :=
  "if (a) \x7b b(); \x7d\nc();\nd();\ne();\nf();\ng();\nh();\ni();\nj();\nk();"

/-- Single-quote character as a one-character string, for building the
concrete require statements. -/
def sq : String := Char.toString quoteSingle

/-- One statement requiring the module fs. -/
def c7one : String := "const a = require(" ++ sq ++ "fs" ++ sq ++ ");"

/-- Two statements requiring the same single module fs. -/
def c7two : String :=
  c7one ++ "\n" ++ "const b = require(" ++ sq ++ "fs" ++ sq ++ ");"

/-- The same two requires plus three padding lines without dependencies. -/
def c7twoPadded : String := c7two ++ "\nx = 1;\ny = 2;\nz = 3;"

/-- Hand-built parse nodes for `c7two`: per statement, a
VariableDeclaration, its VariableDeclarator, the bound Identifier, the
`require` CallExpression, its callee Identifier and the string Literal;
plus the Program root. -/
def c7astTwo : Ast :=
  { nodes :=
      [NodeKind.otherNode,
        NodeKind.otherNode, NodeKind.otherNode, NodeKind.otherNode,
        NodeKind.callExpression (some ("require")), NodeKind.otherNode,
        NodeKind.otherNode,
        NodeKind.otherNode, NodeKind.otherNode, NodeKind.otherNode,
        NodeKind.callExpression (some ("require")), NodeKind.otherNode,
        NodeKind.otherNode],
    startPos := 0, endPos := 51 }

/-- A syntactically simple 5-line, 46-character file: two plain `if`
statements and three bare calls. -/
def c8content : String :=
  "if (a) \x7b b(); \x7d\nif (c) \x7b d(); \x7d\nx();\ny();\nz();"

/-- Hand-built parse nodes of `c8content` as acorn produces them, in
walk order: Program; each `if` contributes IfStatement, test Identifier,
BlockStatement, ExpressionStatement, CallExpression, callee Identifier;
each bare call contributes ExpressionStatement, CallExpression, callee
Identifier. Root span is the whole 46-character source. -/
def c8ast : Ast :=
  { nodes :=
      [NodeKind.otherNode,
        NodeKind.ifStatement, NodeKind.otherNode, NodeKind.otherNode,
        NodeKind.otherNode, NodeKind.callExpression (some ("b")), NodeKind.otherNode,
        NodeKind.ifStatement, NodeKind.otherNode, NodeKind.otherNode,
        NodeKind.otherNode, NodeKind.callExpression (some ("d")), NodeKind.otherNode,
        NodeKind.otherNode, NodeKind.callExpression (some ("x")), NodeKind.otherNode,
        NodeKind.otherNode, NodeKind.callExpression (some ("y")), NodeKind.otherNode,
        NodeKind.otherNode, NodeKind.callExpression (some ("z")), NodeKind.otherNode],
    startPos := 0, endPos := 46 }

/-- Five distinct eligible lines (each longer than 10 characters, none a
comment or import), pairwise distinct after normalization. -/
def c5file : String :=
  "const alpha = 1;\nconst beta = 22;\nconst gamma = 333;\nconst delta = 4;\nconst epsilon = 5;"

/-- The single-candidate run used against the averaging claim. -/
def w3cand : Candidate := { path := "a.js", read := ReadResult.success smallFile none }

/-! General lemmas about the embedding. -/

/-- Splitting never yields an empty list of lines (JS `split` returns at
least one segment). -/
theorem splitLines_ne_nil (cs : List Char) : splitLines cs ≠ [] := by
  induction cs with
  | nil => simp [splitLines]
  | cons c cs ih =>
    by_cases h : c = '\n'
    · simp [splitLines, h]
    · simp only [splitLines, if_neg h]
      cases hs : splitLines cs <;> simp

/-- Every file has at least one line. -/
theorem lineCount_pos (content : String) : 0 < lineCount content :=
  List.length_pos.mpr (splitLines_ne_nil content.data)

/-- Evaluation rule for `jsRound` at a value with known integer rounding. -/
theorem jsRound_eq (x : ℚ) (z : ℤ) (h1 : (z : ℚ) ≤ x + 1 / 2)
    (h2 : x + 1 / 2 < z + 1) : jsRound x = (z : ℚ) := by
  have hz : ⌊x + 1 / 2⌋ = z := Int.floor_eq_iff.mpr ⟨h1, h2⟩
  rw [jsRound, hz]

/-- Evaluation rule for `round2` at a value with known rounding. -/
theorem round2_eq (x : ℚ) (z : ℤ) (h1 : (z : ℚ) ≤ x * 100 + 1 / 2)
    (h2 : x * 100 + 1 / 2 < z + 1) : round2 x = (z : ℚ) / 100 := by
  rw [round2, jsRound_eq (x * 100) z h1 h2]

/-- The four classification buckets of `sprawlLevelOf` are exactly the
half-open intervals of the specification. -/
theorem sprawlLevelOf_spec (a : ℚ) :
    (sprawlLevelOf a = "clean" ↔ a < 0.8) ∧
    (sprawlLevelOf a = "mild" ↔ 0.8 ≤ a ∧ a < 1.2) ∧
    (sprawlLevelOf a = "high" ↔ 1.2 ≤ a ∧ a < 1.6) ∧
    (sprawlLevelOf a = "severe" ↔ 1.6 ≤ a) := by
  unfold sprawlLevelOf
  split_ifs with h1 h2 h3 <;>
    refine ⟨?_, ?_, ?_, ?_⟩ <;> simp_all <;>
      first
        | linarith
        | (constructor <;> linarith)
        | (intros; linarith)
        | (intros; constructor <;> linarith)

/-- Characterization of a successful services `analyzeFile`. -/
theorem analyzeFile_eq_some_iff {content : String} {ast : Option Ast}
    {path : String} {r : FileRecord} :
    analyzeFile content ast path = some r ↔
      ¬ lineCount content < 5 ∧ r = mkFileRecord content ast path := by
  unfold analyzeFile
  split_ifs with h
  · simp [h]
  · simp [h, eq_comm]

/-- Characterization of a successful docker `analyzeFile`. -/
theorem dockerAnalyzeFile_eq_some_iff {content : String} {path : String}
    {r : FileRecord} :
    dockerAnalyzeFile content path = some r ↔
      ¬ lineCount content < 5 ∧ r = mkDockerFileRecord content path := by
  unfold dockerAnalyzeFile
  split_ifs with h
  · simp [h]
  · simp [h, eq_comm]

/-- `filterMap` over a cons, phrased with `Option.toList`. -/
theorem filterMap_cons_toList {α β : Type} (f : α → Option β) (a : α) (l : List α) :
    (a :: l).filterMap f = (f a).toList ++ l.filterMap f := by
  cases h : f a <;> simp [List.filterMap_cons, h]

/-- One loop iteration, phrased through `candidateRecord`. -/
theorem analyzeRepoStep_eq (st : LoopState) (c : Candidate) :
    analyzeRepoStep st c =
      match candidateRecord c with
      | none => st
      | some m =>
        { files := st.files ++ [m],
          analyzedFiles := st.analyzedFiles + 1,
          totalComplexity := st.totalComplexity + m.cyclomaticComplexity,
          totalDebt := st.totalDebt + m.totalDebtScore } := by
  obtain ⟨p, rd⟩ := c
  cases rd with
  | failure msg => rfl
  | success content ast =>
    unfold analyzeRepoStep candidateRecord
    cases analyzeFile content ast p <;> rfl

/-- Closed form of the per-file loop: the final state appends exactly the
records of the candidates and accumulates their counters. -/
theorem foldl_step_spec (cands : List Candidate) (st : LoopState) :
    cands.foldl analyzeRepoStep st =
      { files := st.files ++ cands.filterMap candidateRecord,
        analyzedFiles := st.analyzedFiles + (cands.filterMap candidateRecord).length,
        totalComplexity := st.totalComplexity +
          ((cands.filterMap candidateRecord).map
            (fun r => r.cyclomaticComplexity)).sum,
        totalDebt := st.totalDebt +
          ((cands.filterMap candidateRecord).map (fun r => r.totalDebtScore)).sum } := by
  induction cands generalizing st with
  | nil => simp
  | cons c cs ih =>
    rw [List.foldl_cons, analyzeRepoStep_eq]
    cases h : candidateRecord c with
    | none =>
      rw [ih]
      simp [List.filterMap_cons, h]
    | some m =>
      rw [ih]
      simp only [List.filterMap_cons, h, List.map_cons, List.sum_cons,
        List.length_cons, LoopState.mk.injEq]
      refine ⟨by simp, by omega, by ring, by ring⟩

/-- Closed form of `analyzeRepo`: the emitted list is the filterMap of the
candidates, `analyzedFiles` is its length, and the averages divide the
sums of the emitted (rounded) record fields by that length. -/
theorem analyzeRepo_spec (cands : List Candidate) :
    (analyzeRepo cands).files = cands.filterMap candidateRecord ∧
    (analyzeRepo cands).summary.totalFiles = cands.length ∧
    (analyzeRepo cands).summary.analyzedFiles =
      (cands.filterMap candidateRecord).length ∧
    (analyzeRepo cands).summary.averageComplexity =
      (if (cands.filterMap candidateRecord).length = 0 then 0
       else ((cands.filterMap candidateRecord).map
          (fun r => r.cyclomaticComplexity)).sum /
        ((cands.filterMap candidateRecord).length : ℚ)) ∧
    (analyzeRepo cands).summary.averageDebtScore =
      (if (cands.filterMap candidateRecord).length = 0 then 0
       else ((cands.filterMap candidateRecord).map
          (fun r => r.totalDebtScore)).sum /
        ((cands.filterMap candidateRecord).length : ℚ)) := by
  have hst : cands.foldl analyzeRepoStep ⟨[], 0, 0, 0⟩ =
      { files := cands.filterMap candidateRecord,
        analyzedFiles := (cands.filterMap candidateRecord).length,
        totalComplexity := ((cands.filterMap candidateRecord).map
          (fun r => r.cyclomaticComplexity)).sum,
        totalDebt := ((cands.filterMap candidateRecord).map
          (fun r => r.totalDebtScore)).sum } := by
    simpa using foldl_step_spec cands ⟨[], 0, 0, 0⟩
  simp only [analyzeRepo, hst]
  refine ⟨by trivial, by trivial, by trivial, ?_, ?_⟩ <;>
    by_cases h : (cands.filterMap candidateRecord).length = 0 <;>
      simp [h, Nat.pos_of_ne_zero]

/-- A sum of 0/1 indicator values is a `countP`. -/
theorem sum_map_eq_countP {α : Type} (l : List α) (f : α → ℕ) (p : α → Bool)
    (hf : ∀ a, f a = if p a then 1 else 0) : (l.map f).sum = l.countP p := by
  induction l with
  | nil => simp
  | cons a t ih =>
    simp only [List.map_cons, List.sum_cons, List.countP_cons, hf a, ih]
    by_cases h : p a <;> simp [h] <;> omega

/-- Summing `f - 1` over a list where `f` is everywhere positive. -/
theorem sum_map_sub_one {α : Type} (l : List α) (f : α → ℕ)
    (h : ∀ a ∈ l, 1 ≤ f a) :
    (l.map (fun a => f a - 1)).sum = (l.map f).sum - l.length := by
  induction l with
  | nil => simp
  | cons a t ih =>
    have ha := h a (by simp)
    have ht := ih (fun b hb => h b (List.mem_cons_of_mem a hb))
    have hlen : t.length ≤ (t.map f).sum := by
      calc t.length = (t.map f).length := (List.length_map t f).symm
        _ ≤ (t.map f).sum := List.length_le_sum_of_one_le _
          (fun x hx => by
            obtain ⟨b, hb, rfl⟩ := List.mem_map.mp hx
            exact h b (List.mem_cons_of_mem a hb))
    simp only [List.map_cons, List.sum_cons, List.length_cons]
    omega

/-- The source's guarded accumulation (`if count > 1 then count - 1`)
equals the claim's per-group `n - 1` count. -/
theorem duplicatedLinesCount_eq_spec (content : String) :
    duplicatedLinesCount content = specDuplicatedCount content := by
  unfold duplicatedLinesCount specDuplicatedCount
  congr 1
  apply List.map_congr_left
  intro v _
  by_cases h : (normalizedLines content).count v > 1 <;> simp [h] <;> omega

/-- A 0/1 indicator summed over a duplicate-free list containing its
target is 1. -/
theorem sum_map_indicator_nodup {α : Type} [BEq α] [LawfulBEq α]
    (d : List α) (a : α) (hd : d.Nodup) (ha : a ∈ d) :
    (d.map (fun v => if a == v then 1 else 0)).sum = 1 := by
  induction d with
  | nil => simp at ha
  | cons b t ih =>
    rcases List.mem_cons.mp ha with h | h
    · subst h
      have hz : (t.map (fun v => if a == v then 1 else 0)).sum = 0 := by
        apply List.sum_eq_zero
        intro x hx
        obtain ⟨v, hv, rfl⟩ := List.mem_map.mp hx
        have hne : a ≠ v := by
          intro he
          exact (List.nodup_cons.mp hd).1 (by rw [he]; exact hv)
        simp [hne]
      simp [hz]
    · have hba : ¬ (a == b) = true := by
        intro hbe
        exact (List.nodup_cons.mp hd).1 (by rw [← eq_of_beq hbe]; exact h)
      simp only [List.map_cons, List.sum_cons, if_neg hba,
        ih (List.nodup_cons.mp hd).2 h]

/-- Summing per-distinct-value frequencies recovers the list length. -/
theorem sum_count_dedup {α : Type} [DecidableEq α] [BEq α] [LawfulBEq α]
    (l : List α) : (l.dedup.map (fun v => l.count v)).sum = l.length := by
  induction l with
  | nil => simp
  | cons a t ih =>
    have hcons : ∀ d : List α, d.map (fun v => (a :: t).count v) =
        d.map (fun v => t.count v + if a == v then 1 else 0) := by
      intro d
      apply List.map_congr_left
      intro v _
      exact List.count_cons v a t
    by_cases ha : a ∈ t
    · rw [List.dedup_cons_of_mem ha, hcons, List.sum_map_add, ih,
        sum_map_indicator_nodup t.dedup a (List.nodup_dedup t)
          (List.mem_dedup.mpr ha)]
      simp
    · rw [List.dedup_cons_of_not_mem ha]
      have h1 : (a :: t).count a = t.count a + 1 := by
        simpa using List.count_cons a a t
      have h2 : (t.dedup.map (fun v => if a == v then 1 else 0)).sum = 0 := by
        apply List.sum_eq_zero
        intro x hx
        obtain ⟨v, hv, rfl⟩ := List.mem_map.mp hx
        have hne : a ≠ v := by
          intro he
          exact ha (by rw [he]; exact List.mem_dedup.mp hv)
        simp [hne]
      have h3 : t.count a = 0 := List.count_eq_zero.mpr ha
      have e1 : ((a :: t.dedup).map (fun v => (a :: t).count v)).sum
          = (a :: t).count a + (t.dedup.map (fun v => (a :: t).count v)).sum := by
        simp
      have e2 : (t.dedup.map (fun v => (a :: t).count v)).sum
          = (t.dedup.map (fun v => t.count v)).sum +
            (t.dedup.map (fun v => if a == v then 1 else 0)).sum := by
        rw [hcons, List.sum_map_add]
      rw [e1, e2, ih, h1, h3, h2, List.length_cons]
      omega

/-- Closed form of the duplicated-line count: eligible lines minus the
number of distinct normalized lines. -/
theorem specDuplicatedCount_eq (content : String) :
    specDuplicatedCount content =
      (normalizedLines content).length - (normalizedLines content).dedup.length := by
  unfold specDuplicatedCount
  rw [sum_map_sub_one _ _ (fun v hv =>
    List.count_pos_iff.mpr (List.mem_dedup.mp hv))]
  rw [sum_count_dedup]

/-- The similarity term is non-negative. -/
theorem signatureSimilarityOf_nonneg (content : String) :
    0 ≤ signatureSimilarityOf content := by
  unfold signatureSimilarityOf
  split_ifs with h
  · positivity
  · exact le_refl 0

/-! Claim theorems. -/

/-- C5: for every file, the duplication ratio is the duplicated-line count
(per group of equal normalized eligible lines of size n, n-1 duplicates)
divided by the eligible-line count, 0 when there are no eligible lines;
it always lies in [0, 1) and is 0 when no two normalized eligible lines
are equal. -/
theorem claim_C5 (content : String) :
    calculateDuplicationRatio content =
      (if eligibleLines content = [] then 0
       else (specDuplicatedCount content : ℚ) /
         ((eligibleLines content).length : ℚ)) ∧
    0 ≤ calculateDuplicationRatio content ∧
    calculateDuplicationRatio content < 1 ∧
    ((normalizedLines content).Nodup → calculateDuplicationRatio content = 0) := by
  have hform : calculateDuplicationRatio content =
      (if eligibleLines content = [] then 0
       else (specDuplicatedCount content : ℚ) /
         ((eligibleLines content).length : ℚ)) := by
    unfold calculateDuplicationRatio
    rw [duplicatedLinesCount_eq_spec]
  have hlen : (normalizedLines content).length = (eligibleLines content).length :=
    List.length_map _ _
  refine ⟨hform, ?_, ?_, ?_⟩
  · rw [hform]
    split_ifs with h
    · exact le_refl 0
    · positivity
  · rw [hform]
    split_ifs with h
    · norm_num
    · have hpos : 0 < (eligibleLines content).length := List.length_pos.mpr h
      rw [div_lt_one (by exact_mod_cast hpos)]
      have hne : normalizedLines content ≠ [] := by
        unfold normalizedLines
        simp [h]
      have hd : (normalizedLines content).dedup ≠ [] := by
        rw [Ne, List.dedup_eq_nil]
        exact hne
      have hd1 : 0 < (normalizedLines content).dedup.length := List.length_pos.mpr hd
      have hdup : specDuplicatedCount content < (eligibleLines content).length := by
        rw [specDuplicatedCount_eq, ← hlen]
        omega
      exact_mod_cast hdup
  · intro hnodup
    rw [hform]
    split_ifs with h
    · rfl
    · have hz : specDuplicatedCount content = 0 := by
        rw [specDuplicatedCount_eq, hnodup.dedup]
        omega
      rw [hz]
      simp

/-- C5 witness: a file of five pairwise-distinct eligible lines gets
duplication ratio 0. -/
theorem claim_C5_witness :
    (normalizedLines c5file).Nodup ∧ calculateDuplicationRatio c5file = 0 :=
  ⟨by decide, (claim_C5 c5file).2.2.2 (by decide)⟩

/-- C1: for every emitted record, the sprawl level classifies the
full-precision adjusted score with the exact half-open 0.8/1.2/1.6
boundaries, the adjusted score is sprawl times (1 + entropy factor), and
the sprawl score is the fixed 0.25/0.30/0.20/0.15/0.10 weighted
combination of the sub-metrics; the docker analyzer classifies its
adjusted score through the same function. -/
theorem claim_C1 (content : String) (ast : Option Ast) (path : String)
    (r : FileRecord) (h : analyzeFile content ast path = some r) :
    (r.sprawlLevel = "clean" ↔ adjustedSprawlScoreOf content ast < 0.8) ∧
    (r.sprawlLevel = "mild" ↔ 0.8 ≤ adjustedSprawlScoreOf content ast ∧
      adjustedSprawlScoreOf content ast < 1.2) ∧
    (r.sprawlLevel = "high" ↔ 1.2 ≤ adjustedSprawlScoreOf content ast ∧
      adjustedSprawlScoreOf content ast < 1.6) ∧
    (r.sprawlLevel = "severe" ↔ 1.6 ≤ adjustedSprawlScoreOf content ast) ∧
    adjustedSprawlScoreOf content ast =
      sprawlScoreOf content ast * (1 + calculateAIEntropyFactor content) ∧
    sprawlScoreOf content ast =
      0.25 * normalizedLOCOf content + 0.30 * complexityScoreOf content ast +
        0.20 * calculateDuplicationRatio content +
        0.15 * responsibilityScoreOf content ast +
        0.10 * couplingScoreOf content ast ∧
    (∀ r', dockerAnalyzeFile content path = some r' →
      r'.sprawlLevel = sprawlLevelOf (dockerAdjustedSprawlScoreOf content) ∧
      dockerAdjustedSprawlScoreOf content =
        dockerSprawlScoreOf content * (1 + calculateAIEntropyFactor content)) := by
  obtain ⟨h5, rfl⟩ := analyzeFile_eq_some_iff.mp h
  have hlev : (mkFileRecord content ast path).sprawlLevel =
      sprawlLevelOf (adjustedSprawlScoreOf content ast) := rfl
  rw [hlev]
  obtain ⟨c1, c2, c3, c4⟩ := sprawlLevelOf_spec (adjustedSprawlScoreOf content ast)
  refine ⟨c1, c2, c3, c4, rfl, rfl, ?_⟩
  intro r' h'
  obtain ⟨h5', rfl⟩ := dockerAnalyzeFile_eq_some_iff.mp h'
  exact ⟨rfl, rfl⟩

/-- C1 witness at a concrete 5-line file. -/
theorem claim_C1_witness :
    analyzeFile smallFile none ("w1.js") =
      some (mkFileRecord smallFile none ("w1.js")) ∧
    ((mkFileRecord smallFile none ("w1.js")).sprawlLevel = "clean" ↔
      adjustedSprawlScoreOf smallFile none < 0.8) := by
  have h : analyzeFile smallFile none ("w1.js") =
      some (mkFileRecord smallFile none ("w1.js")) := by
    unfold analyzeFile
    rw [if_neg (by decide)]
  exact ⟨h, (claim_C1 smallFile none ("w1.js") _ h).1⟩

/-- C10: in every emitted record (services and docker alike), the
`sprawlScore` and `totalDebtScore` fields carry the same value, namely the
adjusted post-entropy score rounded to 2 decimals. -/
theorem claim_C10 (content : String) (path : String) :
    (∀ ast r, analyzeFile content ast path = some r →
      r.sprawlScore = r.totalDebtScore ∧
      r.totalDebtScore = round2 (adjustedSprawlScoreOf content ast)) ∧
    (∀ r, dockerAnalyzeFile content path = some r →
      r.sprawlScore = r.totalDebtScore ∧
      r.totalDebtScore = round2 (dockerAdjustedSprawlScoreOf content)) := by
  constructor
  · intro ast r h
    obtain ⟨h5, rfl⟩ := analyzeFile_eq_some_iff.mp h
    exact ⟨rfl, rfl⟩
  · intro r h
    obtain ⟨h5, rfl⟩ := dockerAnalyzeFile_eq_some_iff.mp h
    exact ⟨rfl, rfl⟩

/-- C10 witness at a concrete 5-line file, for both analyzers. -/
theorem claim_C10_witness :
    analyzeFile smallFile none ("w10.js") =
      some (mkFileRecord smallFile none ("w10.js")) ∧
    (mkFileRecord smallFile none ("w10.js")).sprawlScore =
      (mkFileRecord smallFile none ("w10.js")).totalDebtScore ∧
    dockerAnalyzeFile smallFile ("w10.js") =
      some (mkDockerFileRecord smallFile ("w10.js")) ∧
    (mkDockerFileRecord smallFile ("w10.js")).sprawlScore =
      (mkDockerFileRecord smallFile ("w10.js")).totalDebtScore := by
  have h1 : analyzeFile smallFile none ("w10.js") =
      some (mkFileRecord smallFile none ("w10.js")) := by
    unfold analyzeFile
    rw [if_neg (by decide)]
  have h2 : dockerAnalyzeFile smallFile ("w10.js") =
      some (mkDockerFileRecord smallFile ("w10.js")) := by
    unfold dockerAnalyzeFile
    rw [if_neg (by decide)]
  exact ⟨h1, ((claim_C10 smallFile ("w10.js")).1 none _ h1).1, h2,
    ((claim_C10 smallFile ("w10.js")).2 _ h2).1⟩

/-- C9: per-file analysis is position-independent and neighbor-independent:
a candidate's contribution to the emitted list is exactly its own
`candidateRecord`, whatever precedes or follows it, and that record is the
pure function `analyzeFile` of the candidate's content and parse outcome. -/
theorem claim_C9 (pre post : List Candidate) (c : Candidate) :
    (analyzeRepo (pre ++ c :: post)).files =
      (analyzeRepo pre).files ++ (candidateRecord c).toList ++
        (analyzeRepo post).files ∧
    (∀ content ast path,
      candidateRecord { path := path, read := ReadResult.success content ast } =
        analyzeFile content ast path) := by
  constructor
  · rw [(analyzeRepo_spec (pre ++ c :: post)).1, (analyzeRepo_spec pre).1,
      (analyzeRepo_spec post).1, List.filterMap_append, filterMap_cons_toList,
      List.append_assoc]
  · intro content ast path
    rfl

/-- C4: skipped candidates (too short, or whose read/analysis threw) are
counted in `totalFiles` but produce no record and contribute nothing to
`analyzedFiles` or to either average; the run is a total function that
always yields a complete summary. -/
theorem claim_C4 (cands : List Candidate) :
    (analyzeRepo cands).summary.totalFiles = cands.length ∧
    (analyzeRepo cands).files = cands.filterMap candidateRecord ∧
    (analyzeRepo cands).summary.analyzedFiles =
      (analyzeRepo cands).files.length ∧
    (∀ content ast path, lineCount content < 5 →
      analyzeFile content ast path = none) ∧
    (∀ path msg,
      candidateRecord { path := path, read := ReadResult.failure msg } = none) ∧
    (analyzeRepo cands).summary.averageComplexity =
      (if (analyzeRepo cands).files.length = 0 then 0
       else ((analyzeRepo cands).files.map
          (fun r => r.cyclomaticComplexity)).sum /
        ((analyzeRepo cands).files.length : ℚ)) ∧
    (analyzeRepo cands).summary.averageDebtScore =
      (if (analyzeRepo cands).files.length = 0 then 0
       else ((analyzeRepo cands).files.map (fun r => r.totalDebtScore)).sum /
        ((analyzeRepo cands).files.length : ℚ)) := by
  obtain ⟨hf, ht, ha, hc, hd⟩ := analyzeRepo_spec cands
  refine ⟨ht, hf, ?_, ?_, ?_, ?_, ?_⟩
  · rw [ha, hf]
  · intro content ast path hlt
    unfold analyzeFile
    rw [if_pos hlt]
  · intro path msg
    rfl
  · rw [hc, hf]
  · rw [hd, hf]

/-- C4 witness: a 4-line file yields no record, and a failing read yields
no record. -/
theorem claim_C4_witness :
    analyzeFile fourLineFile none ("tiny.js") = none ∧
    candidateRecord { path := "bad.js", read := ReadResult.failure ("EACCES") } =
      none :=
  ⟨(claim_C4 []).2.2.2.1 fourLineFile none ("tiny.js") (by decide),
    (claim_C4 []).2.2.2.2.1 ("bad.js") ("EACCES")⟩

/-- Full-precision adjusted score of the concrete 5-line file: size 5/30,
raw complexity 1, no duplication, responsibility floor 1/2, no coupling,
no entropy. -/
theorem adjusted_smallFile : adjustedSprawlScoreOf smallFile none = 11 / 75 := by
  have hloc : lineCount smallFile = 5 := by decide
  have hcpx : (complexityPatterns.map (fun p => scanCount p smallFile)).sum = 0 := by
    decide
  have hdup : eligibleLines smallFile = [] := by decide
  have hfd : scanCount reFunctionDefs smallFile = 0 := by decide
  have hhttp : scanCount reHttpCall smallFile = 0 := by decide
  have hstate : scanCount reStateCall smallFile = 0 := by decide
  have himp : scanCount reImportLine smallFile = 0 := by decide
  have hreq : scanCount reRequireCall smallFile = 0 := by decide
  have hpat : patternCountOf smallFile = 0 := by decide
  have hsim : ¬ (signatureBucketValues smallFile ≠ [] ∧
      (allSignatures smallFile).length > 3) := by decide
  simp only [adjustedSprawlScoreOf, sprawlScoreOf, normalizedLOCOf,
    complexityScoreOf, cyclomaticComplexityOf, responsibilityScoreOf,
    couplingScoreOf, calculateComplexityRegex, calculateResponsibilityRegex,
    calculateCouplingRegex, calculateDuplicationRatio, calculateAIEntropyFactor,
    signatureSimilarityOf, IDEAL_LOC, CC_MAX, MAX_ALLOWED_DEPENDENCIES,
    IDEAL_RESPONSIBILITIES]
  rw [if_pos hdup, if_neg (by decide : ¬ lineCount smallFile = 0), if_neg hsim]
  rw [hloc, hcpx, hfd, hhttp, hstate, himp, hreq, hpat]
  norm_num [max_def, min_def]

/-- The emitted debt score of the concrete 5-line file: 11/75 rounded to
two decimals is 0.15. -/
theorem debtScore_smallFile :
    (mkFileRecord smallFile none ("a.js")).totalDebtScore = 3 / 20 := by
  show round2 (adjustedSprawlScoreOf smallFile none) = 3 / 20
  rw [adjusted_smallFile, round2_eq (11 / 75) 15 (by norm_num) (by norm_num)]
  norm_num

/-- C3 (amended): the run averages are the arithmetic means, over exactly
the emitted per-file list, of the per-file values as emitted — the
2-decimal-rounded `cyclomaticComplexity` and `totalDebtScore` record
fields — and both are 0 when that list is empty. -/
theorem claim_C3 (cands : List Candidate) :
    ((analyzeRepo cands).files = [] →
      (analyzeRepo cands).summary.averageComplexity = 0 ∧
      (analyzeRepo cands).summary.averageDebtScore = 0) ∧
    ((analyzeRepo cands).files ≠ [] →
      (analyzeRepo cands).summary.averageComplexity =
        ((analyzeRepo cands).files.map (fun r => r.cyclomaticComplexity)).sum /
          ((analyzeRepo cands).files.length : ℚ) ∧
      (analyzeRepo cands).summary.averageDebtScore =
        ((analyzeRepo cands).files.map (fun r => r.totalDebtScore)).sum /
          ((analyzeRepo cands).files.length : ℚ)) := by
  obtain ⟨hf, ht, ha, hc, hd⟩ := analyzeRepo_spec cands
  constructor
  · intro he
    have h0 : (cands.filterMap candidateRecord).length = 0 := by
      rw [← hf, he]
      rfl
    rw [hc, hd, if_pos h0, if_pos h0]
    exact ⟨rfl, rfl⟩
  · intro hne
    have h0 : (cands.filterMap candidateRecord).length ≠ 0 := by
      intro h
      exact hne (by rw [hf]; exact List.length_eq_zero.mp h)
    rw [hc, hd, if_neg h0, if_neg h0, hf]
    exact ⟨rfl, rfl⟩

/-- C3 witness: a one-candidate run where the average equals the mean of
the emitted debt scores. -/
theorem claim_C3_witness :
    (analyzeRepo [w3cand]).files ≠ [] ∧
    (analyzeRepo [w3cand]).summary.averageDebtScore =
      ((analyzeRepo [w3cand]).files.map (fun r => r.totalDebtScore)).sum /
        ((analyzeRepo [w3cand]).files.length : ℚ) := by
  have hne : (analyzeRepo [w3cand]).files ≠ [] := by decide
  exact ⟨hne, ((claim_C3 [w3cand]).2 hne).2⟩

/-- C3 counterexample: for the one-file run over `smallFile` the emitted
average debt score is 0.15, while the mean of the full-precision
(unrounded) adjusted scores of the emitted files is 11/75 = 0.14666...;
the average is computed from the rounded per-file values, not from full
precision. -/
theorem claim_C3_cx :
    (analyzeRepo [w3cand]).summary.averageDebtScore = 3 / 20 ∧
    adjustedSprawlScoreOf smallFile none = 11 / 75 ∧
    ((3 : ℚ) / 20) ≠ 11 / 75 := by
  obtain ⟨hf, ht, ha, hc, hd⟩ := analyzeRepo_spec [w3cand]
  have hrec : candidateRecord w3cand = some (mkFileRecord smallFile none ("a.js")) := by
    show analyzeFile smallFile none ("a.js") = _
    unfold analyzeFile
    rw [if_neg (by decide)]
  have hfm : ([w3cand].filterMap candidateRecord) =
      [mkFileRecord smallFile none ("a.js")] := by
    simp [List.filterMap_cons, hrec]
  refine ⟨?_, adjusted_smallFile, by norm_num⟩
  rw [hd, hfm]
  simp only [List.length_cons, List.length_nil, List.map_cons, List.map_nil,
    List.sum_cons, List.sum_nil]
  rw [if_neg (by norm_num), debtScore_smallFile]
  norm_num

/-- C2 (amended): in the services analyzer the AST-mode raw complexity is
1 plus the number of decision-introducing nodes and the normalized score
is exactly that raw value divided by CC_MAX = 10 with no other
normalization; the docker analyzer's complexity additionally multiplies
the same base-1 raw count by 100 and divides by the line count before the
/10 step. -/
theorem claim_C2 :
    (∀ ast : Ast, calculateComplexityAST ast =
      ((1 + ast.nodes.countP isDecisionPoint : ℕ) : ℚ)) ∧
    (∀ content ast, complexityScoreOf content ast =
      cyclomaticComplexityOf content ast / 10) ∧
    (∀ content, calculateCyclomaticComplexity content =
      calculateComplexityRegex content / (lineCount content : ℚ) * 100) := by
  refine ⟨?_, fun content ast => rfl, fun content => rfl⟩
  intro ast
  unfold calculateComplexityAST
  have hs := sum_map_eq_countP ast.nodes complexityIncrement isDecisionPoint
    (fun k => by cases k <;> rfl)
  rw [hs]

/-- C2 counterexample: on a 10-line file with one `if`, the base-1 raw
count is 2, but the docker analyzer reports raw complexity 20 — its
normalized score is 2, not 2/10, because it divides by the line count. -/
theorem claim_C2_cx :
    calculateComplexityRegex c2xFile = 2 ∧
    calculateCyclomaticComplexity c2xFile = 20 ∧
    dockerComplexityScoreOf c2xFile ≠ calculateComplexityRegex c2xFile / CC_MAX := by
  have hsum : (complexityPatterns.map (fun p => scanCount p c2xFile)).sum = 1 := by
    decide
  have hloc : lineCount c2xFile = 10 := by decide
  have h1 : calculateComplexityRegex c2xFile = 2 := by
    unfold calculateComplexityRegex
    rw [hsum]
    norm_num
  have h2 : calculateCyclomaticComplexity c2xFile = 20 := by
    unfold calculateCyclomaticComplexity
    rw [hsum, hloc]
    norm_num
  refine ⟨h1, h2, ?_⟩
  unfold dockerComplexityScoreOf CC_MAX
  rw [h1, h2]
  norm_num

/-- C6: the entropy factor is min(0.5, (patternCount/lineCount)*0.5 +
signatureConcentration*0.3) with the concentration taken as 0 unless there
are more than 3 signatures; it always lies in [0, 0.5]; and the emitted
record carries it (rounded) whether or not the file parsed structurally. -/
theorem claim_C6 (content : String) :
    calculateAIEntropyFactor content =
      min 0.5 ((patternCountOf content : ℚ) / (lineCount content : ℚ) * 0.5 +
        signatureConcentrationSpec content * 0.3) ∧
    0 ≤ calculateAIEntropyFactor content ∧
    calculateAIEntropyFactor content ≤ 0.5 ∧
    (∀ ast path r, analyzeFile content ast path = some r →
      r.metrics.aiEntropyFactor = round2 (calculateAIEntropyFactor content)) := by
  have hloc : ¬ lineCount content = 0 :=
    Nat.pos_iff_ne_zero.mp (lineCount_pos content)
  have hsim : signatureSimilarityOf content =
      signatureConcentrationSpec content * 0.3 := by
    unfold signatureSimilarityOf signatureConcentrationSpec
    by_cases hlen : (allSignatures content).length > 3
    · have hv : signatureBucketValues content ≠ [] := by
        unfold signatureBucketValues
        intro hnil
        have hl := congrArg List.length hnil
        simp at hl
        rw [hl] at hlen
        simp at hlen
      rw [if_pos ⟨hv, hlen⟩, if_pos hlen]
    · rw [if_neg (fun hcond => hlen hcond.2), if_neg hlen]
      ring
  refine ⟨?_, ?_, ?_, ?_⟩
  · unfold calculateAIEntropyFactor
    rw [if_neg hloc, hsim]
  · unfold calculateAIEntropyFactor
    rw [if_neg hloc]
    refine le_min (by norm_num) ?_
    have h1 : 0 ≤ (patternCountOf content : ℚ) / (lineCount content : ℚ) * 0.5 := by
      positivity
    have h2 := signatureSimilarityOf_nonneg content
    linarith
  · unfold calculateAIEntropyFactor
    rw [if_neg hloc]
    exact min_le_left _ _
  · intro ast path r h
    obtain ⟨h5, rfl⟩ := analyzeFile_eq_some_iff.mp h
    rfl

/-- C6 witness at a concrete 5-line file. -/
theorem claim_C6_witness :
    analyzeFile smallFile none ("w6.js") =
      some (mkFileRecord smallFile none ("w6.js")) ∧
    (mkFileRecord smallFile none ("w6.js")).metrics.aiEntropyFactor =
      round2 (calculateAIEntropyFactor smallFile) := by
  have h : analyzeFile smallFile none ("w6.js") =
      some (mkFileRecord smallFile none ("w6.js")) := by
    unfold analyzeFile
    rw [if_neg (by decide)]
  exact ⟨h, (claim_C6 smallFile).2.2.2 none ("w6.js") _ h⟩

/-- C7 (amended): the coupling score is the number of import-statement
matches plus require-call matches (AST mode: import declarations plus
require calls) divided by 5; every additional import/require occurrence
adds exactly 0.2, even when it repeats an already-counted dependency, and
appending non-import lines leaves the score unchanged. -/
theorem claim_C7 :
    (∀ content, calculateCouplingRegex content =
      ((scanCount reImportLine content + scanCount reRequireCall content : ℕ) : ℚ) /
        5) ∧
    (∀ ast : Ast, calculateCouplingAST ast =
      (((ast.nodes.map dependencyIncrement).sum : ℕ) : ℚ) / 5) ∧
    calculateCouplingRegex c7one = 1 / 5 ∧
    calculateCouplingRegex c7two = 2 / 5 ∧
    calculateCouplingRegex c7twoPadded = 2 / 5 := by
  have e1 : scanCount reImportLine c7one = 0 := by decide
  have e2 : scanCount reRequireCall c7one = 1 := by decide
  have e3 : scanCount reImportLine c7two = 0 := by decide
  have e4 : scanCount reRequireCall c7two = 2 := by decide
  have e5 : scanCount reImportLine c7twoPadded = 0 := by decide
  have e6 : scanCount reRequireCall c7twoPadded = 2 := by decide
  refine ⟨fun content => rfl, fun ast => rfl, ?_, ?_, ?_⟩
  · unfold calculateCouplingRegex MAX_ALLOWED_DEPENDENCIES
    rw [e1, e2]
    norm_num
  · unfold calculateCouplingRegex MAX_ALLOWED_DEPENDENCIES
    rw [e3, e4]
    norm_num
  · unfold calculateCouplingRegex MAX_ALLOWED_DEPENDENCIES
    rw [e5, e6]
    norm_num

/-- C7 counterexample: `c7two` repeats the single dependency `fs` in two
require statements; the score is 2/5, not the 1/5 that a count of
distinct dependencies would give (the AST walker likewise counts the
second require call for the same module). -/
theorem claim_C7_cx :
    calculateCouplingRegex c7one = 1 / 5 ∧
    calculateCouplingRegex c7two = 2 / 5 ∧
    calculateCouplingAST c7astTwo = 2 / 5 ∧
    ((1 : ℚ) / 5) ≠ 2 / 5 := by
  have e1 : scanCount reImportLine c7one = 0 := by decide
  have e2 : scanCount reRequireCall c7one = 1 := by decide
  have e3 : scanCount reImportLine c7two = 0 := by decide
  have e4 : scanCount reRequireCall c7two = 2 := by decide
  have e7 : (c7astTwo.nodes.map dependencyIncrement).sum = 2 := by decide
  refine ⟨?_, ?_, ?_, by norm_num⟩
  · unfold calculateCouplingRegex MAX_ALLOWED_DEPENDENCIES
    rw [e1, e2]
    norm_num
  · unfold calculateCouplingRegex MAX_ALLOWED_DEPENDENCIES
    rw [e3, e4]
    norm_num
  · unfold calculateCouplingAST MAX_ALLOWED_DEPENDENCIES
    rw [e7]
    norm_num

/-- C8 (amended): in the services analyzer the structural and text modes
count the same constructs from base 1 and coincide exactly on a
syntactically simple file (two plain ifs, no imports); the part_001 docker
variant instead normalizes AST complexity by character span and text
complexity by line count, so its two modes diverge without bound (see the
counterexample). -/
theorem claim_C8 :
    calculateComplexityAST c8ast = calculateComplexityRegex c8content ∧
    calculateCouplingAST c8ast = calculateCouplingRegex c8content ∧
    calculateComplexityAST c8ast = 3 := by
  have h1 : (c8ast.nodes.map complexityIncrement).sum = 2 := by decide
  have h2 : (complexityPatterns.map (fun p => scanCount p c8content)).sum = 2 := by
    decide
  have h3 : (c8ast.nodes.map dependencyIncrement).sum = 0 := by decide
  have h4 : scanCount reImportLine c8content = 0 := by decide
  have h5 : scanCount reRequireCall c8content = 0 := by decide
  refine ⟨?_, ?_, ?_⟩
  · unfold calculateComplexityAST calculateComplexityRegex
    rw [h1, h2]
  · unfold calculateCouplingAST calculateCouplingRegex
    rw [h3, h4, h5]
  · unfold calculateComplexityAST
    rw [h1]
    norm_num

/-- C8 counterexample: on the same simple 5-line, 46-character file the
part_001 variant's AST mode yields 150/23 (≈ 6.5) while its text mode
yields 60 — a gap above 50, not within any small tolerance, although both
modes count the same two decision points from base 1. -/
theorem claim_C8_cx :
    calculateComplexityASTSpan c8ast = 150 / 23 ∧
    calculateCyclomaticComplexity c8content = 60 ∧
    50 < calculateCyclomaticComplexity c8content -
      calculateComplexityASTSpan c8ast := by
  have h1 : (c8ast.nodes.map complexityIncrement).sum = 2 := by decide
  have h2 : (complexityPatterns.map (fun p => scanCount p c8content)).sum = 2 := by
    decide
  have hloc : lineCount c8content = 5 := by decide
  have ha : calculateComplexityASTSpan c8ast = 150 / 23 := by
    unfold calculateComplexityASTSpan
    rw [h1]
    norm_num [c8ast]
  have hb : calculateCyclomaticComplexity c8content = 60 := by
    unfold calculateCyclomaticComplexity
    rw [h2, hloc]
    norm_num
  refine ⟨ha, hb, ?_⟩
  rw [ha, hb]
  norm_num

end DevDebt
